import Mathlib

/-!
Verification of the AgriWater irrigation computation core.

The Python sources are shallowly embedded: pandas DataFrames become lists of
records with optional rational fields (a `none` field models a NaN cell),
exceptions become `Except` values tagged by the exception class, and floats
become exact rationals.  Each definition follows the corresponding function of
the repository; theorems settle the frozen specification claims.
-/

namespace AgriWater

/-- The exception classes of `agriwater/exceptions.py`, plus Python's builtin
`ValueError` (raised untyped by `crop_database.py`). -/
inductive AgriError where
  | validationError
  | weatherAPIError
  | calculationError
  | cropDataError
  | valueError
deriving DecidableEq, Repr

instance {ε α : Type} [DecidableEq ε] [DecidableEq α] : DecidableEq (Except ε α) := fun x y =>
  match x, y with
  | .error a, .error b =>
    if h : a = b then isTrue (by rw [h]) else isFalse (fun hc => h (Except.error.inj hc))
  | .error _, .ok _ => isFalse (fun hc => Except.noConfusion hc)
  | .ok _, .error _ => isFalse (fun hc => Except.noConfusion hc)
  | .ok a, .ok b =>
    if h : a = b then isTrue (by rw [h]) else isFalse (fun hc => h (Except.ok.inj hc))

/-- One row of the weather DataFrame built by
`MeteoAPI._parse_response_to_dataframe`; a `none` entry models a NaN cell. -/
structure Record where
  date : Option ℚ
  temp_min : Option ℚ
  temp_mean : Option ℚ
  temp_max : Option ℚ
  et0_fao : Option ℚ
  precipitation : Option ℚ
deriving DecidableEq, Repr

/-- Column accessor: the six columns of the weather DataFrame in order
`date, temp_min, temp_mean, temp_max, et0_fao, precipitation`. -/
def Record.col (r : Record) (c : Fin 6) : Option ℚ :=
  match c with
  | ⟨0, _⟩ => r.date
  | ⟨1, _⟩ => r.temp_min
  | ⟨2, _⟩ => r.temp_mean
  | ⟨3, _⟩ => r.temp_max
  | ⟨4, _⟩ => r.et0_fao
  | ⟨5, _⟩ => r.precipitation

/-- A row with no NaN cell (row-wise negation of `isna().any(axis=1)`). -/
def Record.isComplete (r : Record) : Bool :=
  r.date.isSome && r.temp_min.isSome && r.temp_mean.isSome &&
  r.temp_max.isSome && r.et0_fao.isSome && r.precipitation.isSome

/-- `df.isna().any().any()`: some cell somewhere in the frame is NaN. -/
def isna_any (df : List Record) : Bool :=
  df.any (fun r => !r.isComplete)

/-- Row-wise effect of `df.fillna(0)`. -/
def Record.fillZero (r : Record) : Record :=
  { date := some (r.date.getD 0)
    temp_min := some (r.temp_min.getD 0)
    temp_mean := some (r.temp_mean.getD 0)
    temp_max := some (r.temp_max.getD 0)
    et0_fao := some (r.et0_fao.getD 0)
    precipitation := some (r.precipitation.getD 0) }

/-- `df.fillna(0)`. -/
def fillna0 (df : List Record) : List Record :=
  df.map Record.fillZero

/-- `df.dropna()`: remove every row containing a NaN cell. -/
def dropna (df : List Record) : List Record :=
  df.filter (fun r => r.isComplete)

/-- Position and value of the first known (non-NaN) entry of a column. -/
def firstSome : List (Option ℚ) → Option (ℕ × ℚ)
  | [] => none
  | some v :: _ => some (0, v)
  | none :: rest => (firstSome rest).map (fun p => (p.1 + 1, p.2))

/-- Position and value of the last known entry of a column. -/
def lastSome (xs : List (Option ℚ)) : Option (ℕ × ℚ) :=
  (firstSome xs.reverse).map (fun p => (xs.length - 1 - p.1, p.2))

/-- Nearest known entry strictly before position `i`. -/
def prevKnown (xs : List (Option ℚ)) (i : ℕ) : Option (ℕ × ℚ) :=
  lastSome (xs.take i)

/-- Nearest known entry strictly after position `i`. -/
def nextKnown (xs : List (Option ℚ)) (i : ℕ) : Option (ℕ × ℚ) :=
  (firstSome (xs.drop (i + 1))).map (fun p => (i + 1 + p.1, p.2))

/-- Value at position `i` after `Series.interpolate(method="linear")`:
known values are kept; a NaN bounded by known values at positions `j < i < k`
becomes the linear interpolant; a trailing NaN is clamped to the last known
value; a leading NaN stays NaN. -/
def interpAt (xs : List (Option ℚ)) (i : ℕ) : Option ℚ :=
  match xs.get? i with
  | none => none
  | some (some v) => some v
  | some none =>
    match prevKnown xs i with
    | none => none
    | some (j, a) =>
      match nextKnown xs i with
      | none => some a
      | some (k, b) => some (a + (b - a) * (((i : ℚ) - (j : ℚ)) / ((k : ℚ) - (j : ℚ))))

/-- Row `i` of `df.interpolate(method="linear")` (column-wise interpolation). -/
def interpRecord (df : List Record) (i : ℕ) : Record :=
  { date := interpAt (df.map Record.date) i
    temp_min := interpAt (df.map Record.temp_min) i
    temp_mean := interpAt (df.map Record.temp_mean) i
    temp_max := interpAt (df.map Record.temp_max) i
    et0_fao := interpAt (df.map Record.et0_fao) i
    precipitation := interpAt (df.map Record.precipitation) i }

/-- `df.interpolate(method="linear")`. -/
def interpolate_linear (df : List Record) : List Record :=
  (List.range df.length).map (interpRecord df)

/-- The allowed missing-data strategy names of
`MeteoAPI._parse_response_to_dataframe`. -/
def ALLOWED_STRATEGIES : List String :=
  ["raise", "zero", "interpolate", "drop"]

/-- `MeteoAPI._parse_response_to_dataframe`, after the DataFrame has been
built from the JSON payload: the missing-data handling branch.  Mirrors the
source exactly: the whole branch (including the strategy-name check) runs
only when the frame contains at least one NaN cell. -/
def parse_response_to_dataframe (df : List Record) (missing_data_strategy : String) :
    Except AgriError (List Record) :=
  if isna_any df then
    if ¬(ALLOWED_STRATEGIES.contains missing_data_strategy) then
      .error .validationError
    else if missing_data_strategy = "raise" then
      .error .weatherAPIError
    else if missing_data_strategy = "zero" then
      .ok (fillna0 df)
    else if missing_data_strategy = "interpolate" then
      .ok (interpolate_linear df)
    else
      .ok (dropna df)
  else
    .ok df

/-- A Python value passed as a coordinate: either a number (int/float) or a
non-numeric value such as a string. -/
inductive PyVal where
  | num (q : ℚ)
  | other (tag : String)
deriving DecidableEq, Repr

/-- `isinstance(x, (int, float))`. -/
def PyVal.isNum : PyVal → Bool
  | num _ => true
  | other _ => false

/-- Numeric content of a `PyVal` (only meaningful when `isNum`). -/
def PyVal.toRat : PyVal → ℚ
  | num q => q
  | other _ => 0

/-- The individual messages `coordinates_validation` can append to its
`errors` list. -/
inductive CoordError where
  | latType
  | lonType
  | latRange
  | lonRange
deriving DecidableEq, Repr

/-- The `errors` list built by `coordinates_validation` in `utils.py`:
type errors first; range checks run only when no type error occurred. -/
def coordinates_validation_errors (latitude longitude : PyVal) : List CoordError :=
  let typeErrors :=
    (if ¬latitude.isNum then [CoordError.latType] else []) ++
    (if ¬longitude.isNum then [CoordError.lonType] else [])
  if typeErrors = [] then
    (if ¬(-90 ≤ latitude.toRat ∧ latitude.toRat ≤ 90) then [CoordError.latRange] else []) ++
    (if ¬(-180 ≤ longitude.toRat ∧ longitude.toRat ≤ 180) then [CoordError.lonRange] else [])
  else typeErrors

/-- `coordinates_validation` in `utils.py`: raises `ValidationError` joining
all collected messages when the `errors` list is non-empty. -/
def coordinates_validation (latitude longitude : PyVal) : Except AgriError Unit :=
  if coordinates_validation_errors latitude longitude = [] then .ok ()
  else .error .validationError

/-- `Char.lower` for the ASCII range, as `str.lower()` acts on the crop and
stage names used here. -/
def lowerChar (c : Char) : Char :=
  if 65 ≤ c.toNat ∧ c.toNat ≤ 90 then Char.ofNat (c.toNat + 32) else c

/-- Python's `str.lower()` on the ASCII names stored in the crop database. -/
def pyLower (s : String) : String := ⟨s.data.map lowerChar⟩

/-- One phenological stage entry of `crops_parameters.json`. -/
structure StageInfo where
  kc : ℚ
  duration_days : ℤ
deriving DecidableEq, Repr

/-- One crop entry of `crops_parameters.json` (the fields the embedded
operations read). -/
structure CropInfo where
  phenological_stages : List (String × StageInfo)
deriving DecidableEq, Repr

/-- The loaded crop database (`self.data["crops"]`). -/
structure CropDatabase where
  crops : List (String × CropInfo)
deriving DecidableEq, Repr

/-- `CropDatabase.get_available_crops`. -/
def get_available_crops (db : CropDatabase) : List String :=
  db.crops.map (fun p => p.1)

/-- `CropDatabase.get_crop_info`: lowercases the name, returns `None` when the
crop is not found. -/
def get_crop_info (db : CropDatabase) (crop_name : String) : Option CropInfo :=
  (db.crops.find? (fun p => p.1 = pyLower crop_name)).map (fun p => p.2)

/-- `CropDatabase.validate_crop_and_stage`: raises Python's builtin
`ValueError` (not a typed AgriWater error) when the crop or the stage
is absent. -/
def validate_crop_and_stage (db : CropDatabase) (crop_name crop_stage : String) :
    Except AgriError Unit :=
  if ¬((get_available_crops db).contains (pyLower crop_name)) then .error .valueError
  else
    match get_crop_info db (pyLower crop_name) with
    | none => .error .valueError
    | some crop_info =>
      if ¬((crop_info.phenological_stages.map (fun p => p.1)).contains (pyLower crop_stage)) then
        .error .valueError
      else .ok ()

/-- `CropDatabase.get_kc_for_stage`: returns `None` (no exception) when the
crop or the stage is absent; the stage name is not lowercased here. -/
def get_kc_for_stage (db : CropDatabase) (crop_name crop_stage : String) : Option ℚ :=
  match get_crop_info db crop_name with
  | none => none
  | some crop_info =>
    match crop_info.phenological_stages.find? (fun p => p.1 = crop_stage) with
    | none => none
    | some p => some p.2.kc

/-- The DataFrame handed to `EvapotranspirationCalculator.__init__`, with the
column-presence information pandas carries (`col in weather_data.columns`). -/
structure EngineInput where
  hasDateCol : Bool
  hasEt0Col : Bool
  hasPrecipCol : Bool
  rows : List Record
deriving DecidableEq, Repr

/-- The state of an `EvapotranspirationCalculator` instance: its private copy
of the weather DataFrame, the crop coefficient and name, and the `etc` column
once `calculate_etc` has added it. -/
structure EvapotranspirationCalculator where
  weather_data : List Record
  crop_kc : ℚ
  crop_name : String
  etcCol : Option (List ℚ)
deriving DecidableEq, Repr

/-- `EvapotranspirationCalculator.__init__`: required-columns check
(`CalculationError`), Kc range check (`ValidationError`), then a NaN check on
the `et0_fao` and `precipitation` columns only (`ValidationError`).  On
success the stored frame is a copy of the input rows and no `etc` column
exists yet. -/
def EvapotranspirationCalculator.init (weather_data : EngineInput) (crop_kc : ℚ)
    (crop_name : String) : Except AgriError EvapotranspirationCalculator :=
  if ¬(weather_data.hasDateCol ∧ weather_data.hasEt0Col ∧ weather_data.hasPrecipCol) then
    .error .calculationError
  else if ¬(0 ≤ crop_kc ∧ crop_kc ≤ 2) then
    .error .validationError
  else if weather_data.rows.any (fun r => r.et0_fao.isNone || r.precipitation.isNone) then
    .error .validationError
  else
    .ok { weather_data := weather_data.rows, crop_kc := crop_kc,
          crop_name := crop_name, etcCol := none }

/-- `EvapotranspirationCalculator.calculate_etc`: writes the per-day
`etc = et0_fao * kc` column into the instance's frame and returns it. -/
def calculate_etc (e : EvapotranspirationCalculator) :
    List ℚ × EvapotranspirationCalculator :=
  let etc := e.weather_data.map (fun r => r.et0_fao.getD 0 * e.crop_kc)
  (etc, { e with etcCol := some etc })

/-- `Series.tail(n)`: the last `n` elements (the whole list when `n` is at
least the length). -/
def tailN (xs : List ℚ) (n : ℕ) : List ℚ :=
  xs.drop (xs.length - n)

/-- `EvapotranspirationCalculator.calculate_cumulative_precipitation`. -/
def calculate_cumulative_precipitation (e : EvapotranspirationCalculator)
    (period_days : ℤ) : Except AgriError ℚ :=
  if period_days ≤ 0 then .error .validationError
  else if (e.weather_data.length : ℤ) < period_days then .error .validationError
  else .ok (tailN (e.weather_data.map (fun r => r.precipitation.getD 0)) period_days.toNat).sum

/-- The `if 'etc' not in self.weather_data.columns: self.calculate_etc()`
idiom shared by the engine operations. -/
def ensureEtc (e : EvapotranspirationCalculator) : EvapotranspirationCalculator :=
  if e.etcCol.isSome then e else (calculate_etc e).2

/-- `EvapotranspirationCalculator.calculate_average_etc`: positivity check on
`period_days` only — no check against the series length (`tail` silently
returns the whole column when the period exceeds it). -/
def calculate_average_etc (e : EvapotranspirationCalculator)
    (period_days : Option ℤ) : Except AgriError (ℚ × EvapotranspirationCalculator) :=
  match period_days with
  | some n =>
    if n ≤ 0 then .error .validationError
    else
      let e1 := ensureEtc e
      let vals := tailN (e1.etcCol.getD []) n.toNat
      .ok (vals.sum / (vals.length : ℚ), e1)
  | none =>
    let e1 := ensureEtc e
    let vals := e1.etcCol.getD []
    .ok (vals.sum / (vals.length : ℚ), e1)

/-- Result record of `calculate_irrigation_need`. -/
structure IrrigationNeedResult where
  avg_etc_mm_day : ℚ
  total_etc_mm : ℚ
  total_precipitation_mm : ℚ
  net_irrigation_need_mm : ℚ
  gross_irrigation_need_mm : ℚ
deriving DecidableEq, Repr

/-- `EvapotranspirationCalculator.calculate_irrigation_need`. -/
def calculate_irrigation_need (e : EvapotranspirationCalculator)
    (period_days : ℤ) (efficiency : ℚ) :
    Except AgriError (IrrigationNeedResult × EvapotranspirationCalculator) :=
  if period_days ≤ 0 then .error .validationError
  else if ¬(0 < efficiency ∧ efficiency ≤ 1) then .error .validationError
  else
    let e1 := ensureEtc e
    match calculate_average_etc e1 (some period_days) with
    | .error err => .error err
    | .ok (avg_etc, e2) =>
      let total_etc := avg_etc * (period_days : ℚ)
      match calculate_cumulative_precipitation e2 period_days with
      | .error err => .error err
      | .ok total_precipitation =>
        let net_irrigation_need := max 0 (total_etc - total_precipitation)
        let gross_irrigation_need :=
          if 0 < net_irrigation_need then net_irrigation_need / efficiency else 0
        .ok ({ avg_etc_mm_day := avg_etc
               total_etc_mm := total_etc
               total_precipitation_mm := total_precipitation
               net_irrigation_need_mm := net_irrigation_need
               gross_irrigation_need_mm := gross_irrigation_need }, e2)

/-- Result record of `calculate_irrigation_volume`: every field of
`calculate_irrigation_need` plus the surface and the two volumes. -/
structure IrrigationVolumeResult where
  needs : IrrigationNeedResult
  surface_ha : ℚ
  net_volume_m3 : ℚ
  gross_volume_m3 : ℚ
deriving DecidableEq, Repr

/-- `EvapotranspirationCalculator.calculate_irrigation_volume`: surface check
first, then wraps `calculate_irrigation_need` (1 mm = 10 m3/ha). -/
def calculate_irrigation_volume (e : EvapotranspirationCalculator)
    (surface_ha : ℚ) (period_days : ℤ) (efficiency : ℚ) :
    Except AgriError (IrrigationVolumeResult × EvapotranspirationCalculator) :=
  if surface_ha ≤ 0 then .error .validationError
  else
    match calculate_irrigation_need e period_days efficiency with
    | .error err => .error err
    | .ok (needs, e1) =>
      .ok ({ needs := needs
             surface_ha := surface_ha
             net_volume_m3 := needs.net_irrigation_need_mm * 10 * surface_ha
             gross_volume_m3 := needs.gross_irrigation_need_mm * 10 * surface_ha }, e1)

/-- The agronomic decision summary produced by the orchestrator. -/
structure AgronomicSummary where
  period_days : ℤ
  total_precip_mm : ℚ
  total_etc_mm : ℚ
  water_balance_mm : ℚ
  irrigation_required : Bool
  recommended_mm : ℚ
  recommended_m3_per_ha : ℚ
  recommended_total_m3 : ℚ
  surface_ha : ℚ
deriving DecidableEq, Repr

/-- Modelled from the spec: `IrrigationCalculator.generate_agronomic_summary`
is absent from the sources (only its CLI caller in `cli/interface.py` and the
test `test_generate_agronomic_summary` refer to it).  Per the spec it takes
the engine's calculation results and derives
`water_balance_mm = total_precip_mm - total_etc_mm`,
`irrigation_required = water_balance_mm < 0`, `recommended_mm =
|water_balance_mm|` when required and `0` otherwise, then converts to
per-hectare (`* 10`) and total (`* surface_ha`) volumes. -/
def generate_agronomic_summary (needs : IrrigationNeedResult) (surface_ha : ℚ)
    (period_days : ℤ) : AgronomicSummary :=
  let water_balance := needs.total_precipitation_mm - needs.total_etc_mm
  let required : Bool := water_balance < 0
  let recommended := if required then |water_balance| else 0
  let per_ha := recommended * 10
  { period_days := period_days
    total_precip_mm := needs.total_precipitation_mm
    total_etc_mm := needs.total_etc_mm
    water_balance_mm := water_balance
    irrigation_required := required
    recommended_mm := recommended
    recommended_m3_per_ha := per_ha
    recommended_total_m3 := per_ha * surface_ha
    surface_ha := surface_ha }

/-! ### Helper definitions and lemmas about the engine -/

/-- The `etc` column `calculate_etc` computes for a given engine state. -/
def etcList (e : EvapotranspirationCalculator) : List ℚ :=
  e.weather_data.map (fun r => r.et0_fao.getD 0 * e.crop_kc)

theorem calculate_etc_eq (e : EvapotranspirationCalculator) :
    calculate_etc e = (etcList e, { e with etcCol := some (etcList e) }) := rfl

theorem ensureEtc_eq (e : EvapotranspirationCalculator) :
    ensureEtc e = { e with etcCol := some (e.etcCol.getD (etcList e)) } := by
  obtain ⟨wd, kc, nm, ec⟩ := e
  cases ec <;> simp [ensureEtc, calculate_etc, etcList]

theorem ensureEtc_weather (e : EvapotranspirationCalculator) :
    (ensureEtc e).weather_data = e.weather_data := by
  rw [ensureEtc_eq]

theorem ensureEtc_kc (e : EvapotranspirationCalculator) :
    (ensureEtc e).crop_kc = e.crop_kc := by
  rw [ensureEtc_eq]

theorem ensureEtc_etcCol (e : EvapotranspirationCalculator) :
    (ensureEtc e).etcCol = some (e.etcCol.getD (etcList e)) := by
  rw [ensureEtc_eq]

theorem etcList_ensureEtc (e : EvapotranspirationCalculator) :
    etcList (ensureEtc e) = etcList e := by
  simp [etcList, ensureEtc_weather, ensureEtc_kc]

theorem ensureEtc_idem (e : EvapotranspirationCalculator) :
    ensureEtc (ensureEtc e) = ensureEtc e := by
  rw [ensureEtc_eq (ensureEtc e), ensureEtc_etcCol, ensureEtc_eq]
  simp

/-- The result `calculate_irrigation_need` delivers when its checks pass. -/
def resOf (e : EvapotranspirationCalculator) (period_days : ℤ) (efficiency : ℚ) :
    IrrigationNeedResult :=
  let vals := tailN (e.etcCol.getD (etcList e)) period_days.toNat
  let avg := vals.sum / (vals.length : ℚ)
  let total := avg * (period_days : ℚ)
  let precip := (tailN (e.weather_data.map (fun r => r.precipitation.getD 0)) period_days.toNat).sum
  let net := max 0 (total - precip)
  { avg_etc_mm_day := avg
    total_etc_mm := total
    total_precipitation_mm := precip
    net_irrigation_need_mm := net
    gross_irrigation_need_mm := if 0 < net then net / efficiency else 0 }

theorem resOf_ensureEtc (e : EvapotranspirationCalculator) (n : ℤ) (eff : ℚ) :
    resOf (ensureEtc e) n eff = resOf e n eff := by
  simp [resOf, ensureEtc_etcCol, etcList_ensureEtc, ensureEtc_weather]

theorem calculate_average_etc_some (e : EvapotranspirationCalculator) (n : ℤ)
    (hn : ¬ n ≤ 0) :
    calculate_average_etc e (some n) =
      .ok ((tailN ((ensureEtc e).etcCol.getD []) n.toNat).sum /
             ((tailN ((ensureEtc e).etcCol.getD []) n.toNat).length : ℚ), ensureEtc e) := by
  simp [calculate_average_etc, hn]

theorem calculate_cumulative_precipitation_ok (e : EvapotranspirationCalculator)
    (n : ℤ) (hn : ¬ n ≤ 0) (hlen : ¬ (e.weather_data.length : ℤ) < n) :
    calculate_cumulative_precipitation e n =
      .ok (tailN (e.weather_data.map (fun r => r.precipitation.getD 0)) n.toNat).sum := by
  simp [calculate_cumulative_precipitation, hn, hlen]

theorem calculate_cumulative_precipitation_err (e : EvapotranspirationCalculator)
    (n : ℤ) (h : n ≤ 0 ∨ (e.weather_data.length : ℤ) < n) :
    calculate_cumulative_precipitation e n = .error .validationError := by
  rcases h with h | h
  · simp [calculate_cumulative_precipitation, h]
  · by_cases hn : n ≤ 0
    · simp [calculate_cumulative_precipitation, hn]
    · simp [calculate_cumulative_precipitation, hn, h]

theorem calculate_irrigation_need_eq (e : EvapotranspirationCalculator) (n : ℤ)
    (eff : ℚ) (hn : 0 < n) (heff : 0 < eff ∧ eff ≤ 1)
    (hlen : n ≤ (e.weather_data.length : ℤ)) :
    calculate_irrigation_need e n eff = .ok (resOf e n eff, ensureEtc e) := by
  have hn' : ¬ n ≤ 0 := by omega
  have hlen' : ¬ ((ensureEtc e).weather_data.length : ℤ) < n := by
    rw [ensureEtc_weather]; omega
  simp only [calculate_irrigation_need, if_neg hn', if_neg (not_not_intro heff),
    calculate_average_etc_some _ _ hn', ensureEtc_idem,
    calculate_cumulative_precipitation_ok _ _ hn' hlen']
  rw [ensureEtc_etcCol]
  simp only [Option.getD_some, ensureEtc_weather]
  rfl

theorem calculate_irrigation_need_err_len (e : EvapotranspirationCalculator)
    (n : ℤ) (eff : ℚ) (hn : 0 < n) (heff : 0 < eff ∧ eff ≤ 1)
    (hlen : (e.weather_data.length : ℤ) < n) :
    calculate_irrigation_need e n eff = .error .validationError := by
  have hn' : ¬ n ≤ 0 := by omega
  have hlen' : ((ensureEtc e).weather_data.length : ℤ) < n := by
    rw [ensureEtc_weather]; omega
  simp only [calculate_irrigation_need, if_neg hn', if_neg (not_not_intro heff),
    calculate_average_etc_some _ _ hn', ensureEtc_idem,
    calculate_cumulative_precipitation_err _ _ (Or.inr hlen')]

theorem calculate_irrigation_need_ok_inv (e : EvapotranspirationCalculator)
    (n : ℤ) (eff : ℚ) (res : IrrigationNeedResult)
    (e1 : EvapotranspirationCalculator)
    (h : calculate_irrigation_need e n eff = .ok (res, e1)) :
    0 < n ∧ (0 < eff ∧ eff ≤ 1) ∧ n ≤ (e.weather_data.length : ℤ) ∧
      res = resOf e n eff ∧ e1 = ensureEtc e := by
  by_cases hn : n ≤ 0
  · simp [calculate_irrigation_need, hn] at h
  by_cases heff : 0 < eff ∧ eff ≤ 1
  · by_cases hlen : n ≤ (e.weather_data.length : ℤ)
    · rw [calculate_irrigation_need_eq e n eff (by omega) heff hlen] at h
      obtain ⟨h1, h2⟩ := Prod.mk.injEq .. ▸ (Except.ok.injEq .. ▸ h)
      exact ⟨by omega, heff, hlen, h1.symm, h2.symm⟩
    · rw [calculate_irrigation_need_err_len e n eff (by omega) heff (by omega)] at h
      exact absurd h (by simp)
  · simp [calculate_irrigation_need, hn, heff] at h

/-! ### Helper lemmas about normalization -/

theorem Option.some_getD_of_isSome {o : Option ℚ} (h : o.isSome = true) :
    some (o.getD 0) = o := by
  cases o
  · simp at h
  · rfl

theorem Record.col_none_not_complete (r : Record) (c : Fin 6)
    (h : r.col c = none) : r.isComplete = false := by
  fin_cases c <;>
    simp only [Record.col] at h <;>
    simp [Record.isComplete, h]

theorem Record.fillZero_of_complete (r : Record) (h : r.isComplete = true) :
    r.fillZero = r := by
  obtain ⟨d, t1, t2, t3, e0, p⟩ := r
  simp only [Record.isComplete, Bool.and_eq_true] at h
  obtain ⟨⟨⟨⟨⟨h1, h2⟩, h3⟩, h4⟩, h5⟩, h6⟩ := h
  simp only [Record.fillZero]
  congr 1 <;> exact Option.some_getD_of_isSome (by assumption)

theorem Record.fillZero_complete (r : Record) : r.fillZero.isComplete = true := by
  simp [Record.fillZero, Record.isComplete]

theorem isna_any_false_complete {df : List Record} (h : isna_any df = false)
    {r : Record} (hr : r ∈ df) : r.isComplete = true := by
  simp only [isna_any, List.any_eq_false] at h
  have := h r hr
  simpa using this

theorem col_missing_isna_any {df : List Record} {c : Fin 6} {i : ℕ}
    (h : (df.map (fun r => r.col c)).get? i = some none) : isna_any df = true := by
  rw [List.get?_map] at h
  obtain ⟨r, hr, hcol⟩ := Option.map_eq_some'.mp h
  refine List.any_eq_true.mpr ⟨r, List.get?_mem hr, ?_⟩
  simp [Record.col_none_not_complete r c hcol]

theorem interpRecord_col (df : List Record) (i : ℕ) (c : Fin 6) :
    (interpRecord df i).col c = interpAt (df.map (fun r => r.col c)) i := by
  fin_cases c <;> rfl

theorem interpolate_linear_col_get (df : List Record) (c : Fin 6) (i : ℕ)
    (h : i < df.length) :
    ((interpolate_linear df).map (fun r => r.col c)).get? i =
      some (interpAt (df.map (fun r => r.col c)) i) := by
  rw [interpolate_linear, List.map_map, List.get?_map, List.get?_range h]
  simp [interpRecord_col]

theorem interpAt_bounded_gap {xs : List (Option ℚ)} {i j k : ℕ} {a b : ℚ}
    (hget : xs.get? i = some none) (hprev : prevKnown xs i = some (j, a))
    (hnext : nextKnown xs i = some (k, b)) :
    interpAt xs i =
      some (a + (b - a) * (((i : ℚ) - (j : ℚ)) / ((k : ℚ) - (j : ℚ)))) := by
  have hget' : xs[i]? = some none := by
    rw [← List.get?_eq_getElem?]; exact hget
  simp [interpAt, hget', hprev, hnext]

/-! ### Concrete fixtures used by witnesses and counterexamples -/

/-- A fully populated weather row. -/
def rowComplete : Record := ⟨some 1, some 2, some 3, some 4, some 5, some 6⟩

/-- A row whose `et0_fao` cell is NaN. -/
def rowGap : Record := ⟨some 1, some 2, some 3, some 4, none, some 6⟩

/-- A row whose only NaN cell is the `temp_min` temperature. -/
def rowTempGap : Record := ⟨some 0, none, some 0, some 0, some 4, some 1⟩

/-- A complete row with a given `et0_fao` value. -/
def rowEt0 (v : ℚ) : Record := ⟨some 0, some 0, some 0, some 0, some v, some 0⟩

/-- Three-day frame with an interior `et0_fao` gap between known values 1 and 3. -/
def dfGap : List Record :=
  [⟨some 0, some 0, some 0, some 0, some 1, some 0⟩,
   ⟨some 1, some 1, some 1, some 1, none, some 1⟩,
   ⟨some 2, some 2, some 2, some 2, some 3, some 2⟩]

/-- Seven days with `et0 = 4.0` and `precipitation = 1.0` (spec scenario). -/
def df7 : List Record := List.replicate 7 ⟨some 0, some 0, some 0, some 0, some 4, some 1⟩

/-- The scenario frame as an engine input with all required columns. -/
def w7 : EngineInput := ⟨true, true, true, df7⟩

/-- The engine built from `df7` with `kc = 1.2`. -/
def engine7 : EvapotranspirationCalculator := ⟨df7, 6/5, "wheat", none⟩

/-- `engine7` after its `etc` column has been computed (`etc = 4.8` daily). -/
def engine7after : EvapotranspirationCalculator :=
  { engine7 with etcCol := some (List.replicate 7 (24/5)) }

/-- The spec-scenario irrigation-need numbers
(4.8, 33.6, 7.0, 26.6, 33.25 in exact arithmetic). -/
def res7 : IrrigationNeedResult := ⟨24/5, 168/5, 7, 133/5, 133/4⟩

/-- The spec-scenario volume numbers for `surface_ha = 2` (532 and 665 m3). -/
def vol7 : IrrigationVolumeResult := ⟨res7, 2, 532, 665⟩

/-- A two-day engine (`et0 = 1, 2`, `kc = 1`). -/
def eng2 : EvapotranspirationCalculator := ⟨[rowEt0 1, rowEt0 2], 1, "x", none⟩

/-- Engine input whose only NaN cell is a temperature. -/
def wTempGap : EngineInput := ⟨true, true, true, [rowTempGap]⟩

/-- A one-crop database: wheat with a single `mid_season` stage. -/
def db0 : CropDatabase := ⟨[("wheat", ⟨[("mid_season", ⟨23/20, 40⟩)]⟩)]⟩

/-! ### Claim C4: unknown missing-data strategy -/

/-- C4 counterexample: the claim says an unrecognized strategy name fails with
`ValidationError` for every input series, including one with no missing
values; on a complete series the code never reaches the strategy check and
returns the frame unchanged. -/
theorem claim4_counterexample :
    parse_response_to_dataframe [rowComplete] "bogus" = .ok [rowComplete] := by
  decide

/-- C4 (amended): for a strategy name outside the four allowed literals,
normalization fails with `ValidationError` exactly when the series contains at
least one missing value; a complete series is returned unchanged with the
strategy name never checked. -/
theorem claim4_unknown_strategy (df : List Record) (s : String)
    (hs : ¬ ALLOWED_STRATEGIES.contains s) :
    (isna_any df = true → parse_response_to_dataframe df s = .error .validationError) ∧
    (isna_any df = false → parse_response_to_dataframe df s = .ok df) := by
  have hs' : s ∉ ALLOWED_STRATEGIES := by simpa using hs
  constructor
  · intro hm
    simp [parse_response_to_dataframe, hm, hs']
  · intro hm
    simp [parse_response_to_dataframe, hm]

/-- C4 witness: the amended statement at the gapped one-row frame and the
(case-sensitively unknown) strategy name `"Raise"`. -/
theorem claim4_unknown_strategy_witness :
    parse_response_to_dataframe [rowGap] "Raise" = .error .validationError :=
  (claim4_unknown_strategy [rowGap] "Raise" (by decide)).1 (by decide)

/-! ### Claim C5: period_days exceeding the series length -/

/-- C5 counterexample: the claim says every engine operation taking
`period_days` raises `ValidationError` when it exceeds the series length;
`calculate_average_etc` performs no such check and silently averages over the
whole stored series (here 2 records for a requested period of 3). -/
theorem claim5_counterexample :
    (eng2.weather_data.length : ℤ) < 3 ∧
    calculate_average_etc eng2 (some 3) =
      .ok (3 / 2, { eng2 with etcCol := some [1, 2] }) := by
  constructor
  · norm_num [eng2]
  · rw [calculate_average_etc_some eng2 3 (by norm_num)]
    norm_num [ensureEtc_eq, eng2, etcList, rowEt0, tailN]

/-- C5 (amended): `calculate_cumulative_precipitation` raises
`ValidationError` when `period_days ≤ 0` or when it exceeds the stored series
length, and `calculate_irrigation_need` (with valid efficiency) raises
`ValidationError` when `period_days` exceeds the series length; but
`calculate_average_etc` never checks the length and succeeds for every
positive `period_days`. -/
theorem claim5_period_checks (e : EvapotranspirationCalculator) (n : ℤ) (eff : ℚ) :
    (n ≤ 0 ∨ (e.weather_data.length : ℤ) < n →
      calculate_cumulative_precipitation e n = .error .validationError) ∧
    (0 < n → 0 < eff → eff ≤ 1 → (e.weather_data.length : ℤ) < n →
      calculate_irrigation_need e n eff = .error .validationError) ∧
    (0 < n → ∃ v e1, calculate_average_etc e (some n) = .ok (v, e1)) := by
  refine ⟨calculate_cumulative_precipitation_err e n, ?_, ?_⟩
  · intro hn h0 h1 hlen
    exact calculate_irrigation_need_err_len e n eff hn ⟨h0, h1⟩ hlen
  · intro hn
    exact ⟨_, _, calculate_average_etc_some e n (by omega)⟩

/-- C5 witness: the amended statement at the two-day engine, a period of 3
days and efficiency 0.85. -/
theorem claim5_period_checks_witness :
    calculate_cumulative_precipitation eng2 3 = .error .validationError ∧
    calculate_irrigation_need eng2 3 (17/20) = .error .validationError := by
  refine ⟨(claim5_period_checks eng2 3 (17/20)).1 (Or.inr (by norm_num [eng2])), ?_⟩
  exact (claim5_period_checks eng2 3 (17/20)).2.1 (by norm_num) (by norm_num)
    (by norm_num) (by norm_num [eng2])

/-! ### Claim C6: engine construction errors -/

theorem init_err_cols (w : EngineInput) (kc : ℚ) (nm : String)
    (h : ¬(w.hasDateCol ∧ w.hasEt0Col ∧ w.hasPrecipCol)) :
    EvapotranspirationCalculator.init w kc nm = .error .calculationError := by
  unfold EvapotranspirationCalculator.init
  rw [if_pos h]

theorem init_err_kc (w : EngineInput) (kc : ℚ) (nm : String)
    (hcols : w.hasDateCol ∧ w.hasEt0Col ∧ w.hasPrecipCol) (h : ¬(0 ≤ kc ∧ kc ≤ 2)) :
    EvapotranspirationCalculator.init w kc nm = .error .validationError := by
  unfold EvapotranspirationCalculator.init
  rw [if_neg (not_not_intro hcols), if_pos h]

theorem init_err_nan (w : EngineInput) (kc : ℚ) (nm : String)
    (hcols : w.hasDateCol ∧ w.hasEt0Col ∧ w.hasPrecipCol) (hkc : 0 ≤ kc ∧ kc ≤ 2)
    (h : w.rows.any (fun r => r.et0_fao.isNone || r.precipitation.isNone) = true) :
    EvapotranspirationCalculator.init w kc nm = .error .validationError := by
  unfold EvapotranspirationCalculator.init
  rw [if_neg (not_not_intro hcols), if_neg (not_not_intro hkc), if_pos h]

theorem init_ok (w : EngineInput) (kc : ℚ) (nm : String)
    (hcols : w.hasDateCol ∧ w.hasEt0Col ∧ w.hasPrecipCol) (hkc : 0 ≤ kc ∧ kc ≤ 2)
    (h : w.rows.any (fun r => r.et0_fao.isNone || r.precipitation.isNone) = false) :
    EvapotranspirationCalculator.init w kc nm = .ok ⟨w.rows, kc, nm, none⟩ := by
  unfold EvapotranspirationCalculator.init
  rw [if_neg (not_not_intro hcols), if_neg (not_not_intro hkc), if_neg (by simp [h])]

theorem init_ok_inv (w : EngineInput) (kc : ℚ) (nm : String)
    (e : EvapotranspirationCalculator)
    (h : EvapotranspirationCalculator.init w kc nm = .ok e) :
    e = ⟨w.rows, kc, nm, none⟩ ∧ (w.hasDateCol ∧ w.hasEt0Col ∧ w.hasPrecipCol) ∧
      (0 ≤ kc ∧ kc ≤ 2) ∧
      w.rows.any (fun r => r.et0_fao.isNone || r.precipitation.isNone) = false := by
  by_cases hcols : w.hasDateCol ∧ w.hasEt0Col ∧ w.hasPrecipCol
  · by_cases hkc : 0 ≤ kc ∧ kc ≤ 2
    · by_cases hnan : w.rows.any (fun r => r.et0_fao.isNone || r.precipitation.isNone) = true
      · rw [init_err_nan w kc nm hcols hkc hnan] at h
        exact absurd h (by simp)
      · have hnan' := Bool.not_eq_true _ ▸ hnan
        rw [init_ok w kc nm hcols hkc hnan'] at h
        exact ⟨(Except.ok.inj h).symm, hcols, hkc, hnan'⟩
    · rw [init_err_kc w kc nm hcols hkc] at h
      exact absurd h (by simp)
  · rw [init_err_cols w kc nm hcols] at h
    exact absurd h (by simp)

/-- C6 counterexample: the claim says construction raises `ValidationError`
when any numeric field — including the temperature fields — still contains a
missing value; the code only checks `et0_fao` and `precipitation`, so a frame
whose only NaN sits in `temp_min` constructs successfully. -/
theorem claim6_counterexample :
    rowTempGap.temp_min = none ∧
    EvapotranspirationCalculator.init wTempGap 1 "x" = .ok ⟨[rowTempGap], 1, "x", none⟩ := by
  constructor
  · rfl
  · exact init_ok wTempGap 1 "x" (by decide) (by norm_num) (by decide)

/-- C6 (amended): construction raises `CalculationError` exactly when a
required column (`date`, `et0_fao`, `precipitation`) is absent; with the
columns present it raises `ValidationError` exactly when the crop coefficient
is outside `[0, 2]` or when the `et0_fao` or `precipitation` column still
contains a missing value (temperature columns are not checked); otherwise it
succeeds, storing a copy of the rows and no `etc` column. -/
theorem claim6_init_errors (w : EngineInput) (kc : ℚ) (nm : String) :
    (EvapotranspirationCalculator.init w kc nm = .error .calculationError ↔
      ¬(w.hasDateCol ∧ w.hasEt0Col ∧ w.hasPrecipCol)) ∧
    ((w.hasDateCol ∧ w.hasEt0Col ∧ w.hasPrecipCol) →
      (EvapotranspirationCalculator.init w kc nm = .error .validationError ↔
        (¬(0 ≤ kc ∧ kc ≤ 2) ∨
          w.rows.any (fun r => r.et0_fao.isNone || r.precipitation.isNone) = true))) ∧
    ((w.hasDateCol ∧ w.hasEt0Col ∧ w.hasPrecipCol) → (0 ≤ kc ∧ kc ≤ 2) →
      w.rows.any (fun r => r.et0_fao.isNone || r.precipitation.isNone) = false →
      EvapotranspirationCalculator.init w kc nm = .ok ⟨w.rows, kc, nm, none⟩) := by
  refine ⟨⟨?_, init_err_cols w kc nm⟩, ?_, init_ok w kc nm⟩
  · intro h
    by_cases hcols : w.hasDateCol ∧ w.hasEt0Col ∧ w.hasPrecipCol
    · exfalso
      by_cases hkc : 0 ≤ kc ∧ kc ≤ 2
      · by_cases hnan : w.rows.any (fun r => r.et0_fao.isNone || r.precipitation.isNone) = true
        · rw [init_err_nan w kc nm hcols hkc hnan] at h
          exact absurd h (by simp)
        · rw [init_ok w kc nm hcols hkc (Bool.not_eq_true _ ▸ hnan)] at h
          exact absurd h (by simp)
      · rw [init_err_kc w kc nm hcols hkc] at h
        exact absurd h (by simp)
    · exact hcols
  · intro hcols
    constructor
    · intro h
      by_cases hkc : 0 ≤ kc ∧ kc ≤ 2
      · by_cases hnan : w.rows.any (fun r => r.et0_fao.isNone || r.precipitation.isNone) = true
        · exact Or.inr hnan
        · rw [init_ok w kc nm hcols hkc (Bool.not_eq_true _ ▸ hnan)] at h
          exact absurd h (by simp)
      · exact Or.inl hkc
    · rintro (hkc | hnan)
      · exact init_err_kc w kc nm hcols hkc
      · by_cases hkc : 0 ≤ kc ∧ kc ≤ 2
        · exact init_err_nan w kc nm hcols hkc hnan
        · exact init_err_kc w kc nm hcols hkc

/-- C6 witness: the amended statement at a complete one-row frame with
`kc = 1`, and at a frame missing its required columns. -/
theorem claim6_init_errors_witness :
    EvapotranspirationCalculator.init ⟨true, true, true, [rowComplete]⟩ 1 "wheat" =
      .ok ⟨[rowComplete], 1, "wheat", none⟩ ∧
    EvapotranspirationCalculator.init ⟨false, true, true, [rowComplete]⟩ 1 "wheat" =
      .error .calculationError := by
  constructor
  · exact (claim6_init_errors ⟨true, true, true, [rowComplete]⟩ 1 "wheat").2.2
      (by decide) (by norm_num) (by decide)
  · exact ((claim6_init_errors ⟨false, true, true, [rowComplete]⟩ 1 "wheat").1).2
      (by decide)

/-! ### Claim C7: how crop/stage absence is signalled -/

/-- C7: the claim (and the repository's own test
`test_get_kc_invalid_stage_raises_error`) says absence of a crop or stage is
signalled by the typed `CropDataError`; evaluating the code shows
`get_kc_for_stage` returns `None` without raising, and
`validate_crop_and_stage` raises Python's builtin `ValueError`, not
`CropDataError`. -/
theorem claim7_crop_absence_eval :
    get_kc_for_stage db0 "wheat" "invalid_stage" = none ∧
    get_kc_for_stage db0 "banana" "mid_season" = none ∧
    validate_crop_and_stage db0 "banana" "mid_season" = .error .valueError ∧
    validate_crop_and_stage db0 "wheat" "harvest" = .error .valueError ∧
    AgriError.valueError ≠ AgriError.cropDataError := by
  refine ⟨by decide, by decide, by decide, by decide, by decide⟩

/-! ### Claim C8: irrigation volume -/

/-- The spec scenario evaluated on the engine: `et0 = 4.0` and
`precipitation = 1.0` for 7 days, `kc = 1.2`, `period = 7`,
`efficiency = 0.8`. -/
theorem need_scenario :
    calculate_irrigation_need engine7 7 (4/5) = .ok (res7, engine7after) := by
  rw [calculate_irrigation_need_eq engine7 7 (4/5) (by norm_num) (by norm_num)
    (by norm_num [engine7, df7])]
  have h1 : resOf engine7 7 (4/5) = res7 := by
    norm_num [resOf, engine7, etcList, df7, tailN, res7, List.replicate,
      IrrigationNeedResult.mk.injEq]
  have h2 : ensureEtc engine7 = engine7after := by
    norm_num [ensureEtc_eq, engine7, engine7after, etcList, df7, List.replicate]
  rw [h1, h2]

/-- C8: `calculate_irrigation_volume` fails with `ValidationError` for every
non-positive surface before computing anything, and otherwise returns every
field of `calculate_irrigation_need` extended with the surface and the exact
1 mm = 10 m3/ha volume conversions. -/
theorem claim8_irrigation_volume (e : EvapotranspirationCalculator)
    (s : ℚ) (n : ℤ) (eff : ℚ) :
    (s ≤ 0 → calculate_irrigation_volume e s n eff = .error .validationError) ∧
    (0 < s → ∀ (needs : IrrigationNeedResult) (e1 : EvapotranspirationCalculator),
      calculate_irrigation_need e n eff = .ok (needs, e1) →
      calculate_irrigation_volume e s n eff =
        .ok ({ needs := needs, surface_ha := s,
               net_volume_m3 := needs.net_irrigation_need_mm * 10 * s,
               gross_volume_m3 := needs.gross_irrigation_need_mm * 10 * s }, e1)) := by
  constructor
  · intro hs
    unfold calculate_irrigation_volume
    rw [if_pos hs]
  · intro hs needs e1 h
    unfold calculate_irrigation_volume
    rw [if_neg (not_le.mpr hs), h]

/-- C8 witness: the spec scenario with `surface_ha = 2` gives
`net_volume_m3 = 532` and `gross_volume_m3 = 665`. -/
theorem claim8_irrigation_volume_witness :
    calculate_irrigation_volume engine7 2 7 (4/5) = .ok (vol7, engine7after) := by
  have h := (claim8_irrigation_volume engine7 2 7 (4/5)).2 (by norm_num)
    res7 engine7after need_scenario
  rw [h]
  norm_num [vol7, res7, IrrigationVolumeResult.mk.injEq]

/-! ### Claim C9: coordinate validation -/

/-- C9 counterexample: the claim says that whenever both coordinates are in
violation the two violations are reported together; with a non-numeric
latitude and an out-of-range numeric longitude, the range checks are skipped
and only the latitude type violation is reported. -/
theorem claim9_counterexample :
    (¬(-180 ≤ (PyVal.num 200).toRat ∧ (PyVal.num 200).toRat ≤ 180)) ∧
    (PyVal.other "45").isNum = false ∧
    coordinates_validation_errors (PyVal.other "45") (PyVal.num 200) =
      [CoordError.latType] := by
  refine ⟨by norm_num [PyVal.toRat], by decide, by decide⟩

/-- C9 (amended): validation succeeds on numeric in-range pairs and fails with
`ValidationError` on any violation; the two violations are reported together
when both are type violations or both are numeric range violations, but a
type violation on one coordinate skips the range checks, so a range violation
on the other coordinate goes unreported. -/
theorem claim9_coordinates (lat lon : PyVal) :
    ((lat.isNum ∧ lon.isNum ∧ -90 ≤ lat.toRat ∧ lat.toRat ≤ 90 ∧
        -180 ≤ lon.toRat ∧ lon.toRat ≤ 180) →
      coordinates_validation lat lon = .ok ()) ∧
    ((lat.isNum = false ∨ lon.isNum = false ∨
        ¬(-90 ≤ lat.toRat ∧ lat.toRat ≤ 90) ∨ ¬(-180 ≤ lon.toRat ∧ lon.toRat ≤ 180)) →
      coordinates_validation lat lon = .error .validationError) ∧
    (lat.isNum = false → lon.isNum = false →
      coordinates_validation_errors lat lon = [CoordError.latType, CoordError.lonType]) ∧
    (lat.isNum = true → lon.isNum = true →
      ¬(-90 ≤ lat.toRat ∧ lat.toRat ≤ 90) → ¬(-180 ≤ lon.toRat ∧ lon.toRat ≤ 180) →
      coordinates_validation_errors lat lon = [CoordError.latRange, CoordError.lonRange]) ∧
    (lat.isNum = false → CoordError.lonRange ∉ coordinates_validation_errors lat lon) := by
  refine ⟨?_, ?_, ?_, ?_, ?_⟩
  · rintro ⟨h1, h2, h3, h4, h5, h6⟩
    cases lat <;> cases lon <;> simp_all [coordinates_validation,
      coordinates_validation_errors, PyVal.isNum, PyVal.toRat]
  · intro h
    cases lat with
    | other t =>
      cases lon <;>
        simp [coordinates_validation, coordinates_validation_errors, PyVal.isNum]
    | num a =>
      cases lon with
      | other t =>
        simp [coordinates_validation, coordinates_validation_errors, PyVal.isNum]
      | num b =>
        by_cases hra : -90 ≤ a ∧ a ≤ 90
        · by_cases hrb : -180 ≤ b ∧ b ≤ 180
          · rcases h with h | h | h | h
            · exact absurd h (by simp [PyVal.isNum])
            · exact absurd h (by simp [PyVal.isNum])
            · exact absurd hra h
            · exact absurd hrb h
          · simp [coordinates_validation, coordinates_validation_errors,
              PyVal.isNum, PyVal.toRat, hra, hrb]
        · simp [coordinates_validation, coordinates_validation_errors,
            PyVal.isNum, PyVal.toRat, hra]
  · intro h1 h2
    cases lat <;> cases lon <;> simp_all [coordinates_validation_errors, PyVal.isNum]
  · intro h1 h2 h3 h4
    cases lat <;> cases lon <;> simp_all [coordinates_validation_errors,
      PyVal.isNum, PyVal.toRat]
  · intro h1
    cases lat <;> cases lon <;> simp_all [coordinates_validation_errors, PyVal.isNum]

/-- C9 witness: the amended statement at a valid pair, at a pair with both
ranges violated, and at a pair with both types violated. -/
theorem claim9_coordinates_witness :
    coordinates_validation (PyVal.num 43) (PyVal.num 3) = .ok () ∧
    coordinates_validation_errors (PyVal.num 95) (PyVal.num 200) =
      [CoordError.latRange, CoordError.lonRange] ∧
    coordinates_validation_errors (PyVal.other "a") (PyVal.other "b") =
      [CoordError.latType, CoordError.lonType] := by
  refine ⟨?_, ?_, ?_⟩
  · exact (claim9_coordinates (PyVal.num 43) (PyVal.num 3)).1
      (by norm_num [PyVal.isNum, PyVal.toRat])
  · exact (claim9_coordinates (PyVal.num 95) (PyVal.num 200)).2.2.2.1 rfl rfl
      (by norm_num [PyVal.toRat]) (by norm_num [PyVal.toRat])
  · exact (claim9_coordinates (PyVal.other "a") (PyVal.other "b")).2.2.1 rfl rfl

/-! ### Claim C1: the agronomic summary -/

/-- C1: for every summary generated from the engine's calculation results the
decision fields satisfy the balance, threshold, absolute-value and exact
volume-conversion equations of the spec. -/
theorem claim1_agronomic_summary (e : EvapotranspirationCalculator) (n : ℤ)
    (eff s : ℚ) (res : IrrigationNeedResult) (e1 : EvapotranspirationCalculator)
    (heff0 : 0 < eff) (heff1 : eff ≤ 1)
    (h : calculate_irrigation_need e n eff = .ok (res, e1)) (g : AgronomicSummary)
    (hg : g = generate_agronomic_summary res s n) :
    g.total_precip_mm = res.total_precipitation_mm ∧
    g.total_etc_mm = res.total_etc_mm ∧
    g.surface_ha = s ∧
    g.period_days = n ∧
    g.water_balance_mm = g.total_precip_mm - g.total_etc_mm ∧
    (g.irrigation_required = true ↔ g.water_balance_mm < 0) ∧
    g.recommended_mm = (if g.water_balance_mm < 0 then |g.water_balance_mm| else 0) ∧
    g.recommended_m3_per_ha = g.recommended_mm * 10 ∧
    g.recommended_total_m3 = g.recommended_m3_per_ha * g.surface_ha := by
  subst hg
  refine ⟨rfl, rfl, rfl, rfl, rfl, ?_, ?_, rfl, rfl⟩
  · simp [generate_agronomic_summary]
  · simp [generate_agronomic_summary]

/-- C1 witness: the scenario summary (2 ha, 7 days) satisfies the
total-volume invariant. -/
theorem claim1_agronomic_summary_witness :
    (generate_agronomic_summary res7 2 7).recommended_total_m3 =
      (generate_agronomic_summary res7 2 7).recommended_m3_per_ha * 2 := by
  have h := claim1_agronomic_summary engine7 7 (4/5) 2 res7 engine7after
    (by norm_num) (by norm_num) need_scenario (generate_agronomic_summary res7 2 7) rfl
  calc (generate_agronomic_summary res7 2 7).recommended_total_m3
      = (generate_agronomic_summary res7 2 7).recommended_m3_per_ha *
          (generate_agronomic_summary res7 2 7).surface_ha := h.2.2.2.2.2.2.2.2
    _ = (generate_agronomic_summary res7 2 7).recommended_m3_per_ha * 2 := by
        rw [h.2.2.1]

/-! ### Claim C2: the irrigation-need computation -/

theorem tailN_map (xs : List Record) (f : Record → ℚ) (m : ℕ) :
    tailN (xs.map f) m = (xs.drop (xs.length - m)).map f := by
  simp [tailN, List.map_drop]

theorem toNat_cast_rat {n : ℤ} (h : 0 ≤ n) : ((n.toNat : ℕ) : ℚ) = (n : ℚ) := by
  exact_mod_cast congrArg (fun z : ℤ => (z : ℚ)) (Int.toNat_of_nonneg h)

theorem net_le_gross {net eff : ℚ} (hnet : 0 ≤ net) (heff0 : 0 < eff)
    (heff1 : eff ≤ 1) : net ≤ (if 0 < net then net / eff else 0) := by
  by_cases h : 0 < net
  · rw [if_pos h, le_div_iff heff0]
    exact mul_le_of_le_one_right hnet heff1
  · rw [if_neg h, le_antisymm (not_lt.mp h) hnet]

/-- The engine of the spec scenario constructs successfully. -/
theorem init_scenario :
    EvapotranspirationCalculator.init w7 (6/5) "wheat" = .ok engine7 := by
  norm_num [EvapotranspirationCalculator.init, w7, df7, engine7, List.replicate]

/-- C2: over an engine built from a complete series, the irrigation-need
fields satisfy the mean, aggregation, water-balance and efficiency equations
of the spec; and the concrete spec scenario evaluates to
(4.8, 33.6, 7.0, 26.6, 33.25). -/
theorem claim2_irrigation_need :
    (∀ (w : EngineInput) (kc : ℚ) (nm : String) (e : EvapotranspirationCalculator)
        (n : ℤ) (eff : ℚ),
      EvapotranspirationCalculator.init w kc nm = .ok e →
      1 ≤ n → n ≤ (e.weather_data.length : ℤ) → 0 < eff → eff ≤ 1 →
      ∃ (res : IrrigationNeedResult) (e1 : EvapotranspirationCalculator),
        calculate_irrigation_need e n eff = .ok (res, e1) ∧
        res.avg_etc_mm_day =
          ((e.weather_data.drop (e.weather_data.length - n.toNat)).map
            (fun r => r.et0_fao.getD 0 * kc)).sum / (n : ℚ) ∧
        res.total_etc_mm = res.avg_etc_mm_day * (n : ℚ) ∧
        res.total_precipitation_mm =
          ((e.weather_data.drop (e.weather_data.length - n.toNat)).map
            (fun r => r.precipitation.getD 0)).sum ∧
        res.net_irrigation_need_mm =
          max 0 (res.total_etc_mm - res.total_precipitation_mm) ∧
        0 ≤ res.net_irrigation_need_mm ∧
        res.gross_irrigation_need_mm =
          (if 0 < res.net_irrigation_need_mm
            then res.net_irrigation_need_mm / eff else 0) ∧
        res.net_irrigation_need_mm ≤ res.gross_irrigation_need_mm) ∧
    calculate_irrigation_need engine7 7 (4/5) = .ok (res7, engine7after) := by
  constructor
  · intro w kc nm e n eff hinit hn hlen heff0 heff1
    obtain ⟨he, -, -, -⟩ := init_ok_inv w kc nm e hinit
    subst he
    have hlen2 : n.toNat ≤ w.rows.length := by
      have h2 : n ≤ (w.rows.length : ℤ) := hlen
      omega
    have hvals : tailN (etcList ⟨w.rows, kc, nm, none⟩) n.toNat =
        (w.rows.drop (w.rows.length - n.toNat)).map
          (fun r => r.et0_fao.getD 0 * kc) :=
      tailN_map w.rows (fun r => r.et0_fao.getD 0 * kc) n.toNat
    have hvlen : (((tailN (etcList ⟨w.rows, kc, nm, none⟩) n.toNat).length : ℕ) : ℚ) =
        (n : ℚ) := by
      rw [hvals]
      rw [List.length_map, List.length_drop]
      rw [show w.rows.length - (w.rows.length - n.toNat) = n.toNat by omega]
      exact toNat_cast_rat (by omega)
    refine ⟨resOf ⟨w.rows, kc, nm, none⟩ n eff, ensureEtc ⟨w.rows, kc, nm, none⟩,
      calculate_irrigation_need_eq _ n eff (by omega) ⟨heff0, heff1⟩ hlen,
      ?_, rfl, ?_, rfl, le_max_left 0 _, rfl,
      net_le_gross (le_max_left 0 _) heff0 heff1⟩
    · show (tailN (etcList ⟨w.rows, kc, nm, none⟩) n.toNat).sum /
          (((tailN (etcList ⟨w.rows, kc, nm, none⟩) n.toNat).length : ℕ) : ℚ) = _
      rw [hvlen, hvals]
    · show (tailN ((⟨w.rows, kc, nm, none⟩ :
          EvapotranspirationCalculator).weather_data.map
            (fun r => r.precipitation.getD 0)) n.toNat).sum = _
      rw [tailN_map]
  · exact need_scenario

/-- C2 witness: the general statement applied to the spec-scenario engine. -/
theorem claim2_irrigation_need_witness :
    ∃ (res : IrrigationNeedResult) (e1 : EvapotranspirationCalculator),
      calculate_irrigation_need engine7 7 (4/5) = .ok (res, e1) ∧
      0 ≤ res.net_irrigation_need_mm ∧
      res.net_irrigation_need_mm ≤ res.gross_irrigation_need_mm := by
  obtain ⟨res, e1, hok, -, -, -, -, hnn, -, hle⟩ :=
    claim2_irrigation_need.1 w7 (6/5) "wheat" engine7 7 (4/5)
      init_scenario (by norm_num) (by norm_num [engine7, df7]) (by norm_num) (by norm_num)
  exact ⟨res, e1, hok, hnn, hle⟩

/-! ### Claim C10: copies, repeatability, purity -/

theorem calculate_irrigation_need_repeat (e : EvapotranspirationCalculator)
    (n : ℤ) (eff : ℚ) (res : IrrigationNeedResult)
    (e1 : EvapotranspirationCalculator)
    (h : calculate_irrigation_need e n eff = .ok (res, e1)) :
    calculate_irrigation_need e1 n eff = .ok (res, e1) := by
  obtain ⟨hn, heff, hlen, hres, he1⟩ :=
    calculate_irrigation_need_ok_inv e n eff res e1 h
  subst hres
  subst he1
  rw [calculate_irrigation_need_eq (ensureEtc e) n eff hn heff
    (by rw [ensureEtc_weather]; exact hlen)]
  rw [resOf_ensureEtc, ensureEtc_idem]

/-- The volume computation of the spec scenario (2 ha). -/
theorem volume_scenario :
    calculate_irrigation_volume engine7 2 7 (4/5) = .ok (vol7, engine7after) := by
  unfold calculate_irrigation_volume
  rw [if_neg (by norm_num), need_scenario]
  norm_num [vol7, res7, IrrigationVolumeResult.mk.injEq]

/-- C10: the engine stores a copy of the caller's series at construction;
`calculate_etc` only adds the `etc` column (the weather rows and the
coefficient are untouched); and re-running `calculate_irrigation_need` or
`calculate_irrigation_volume` on the state returned by a successful run
returns the identical result and state. -/
theorem claim10_engine_purity :
    (∀ (w : EngineInput) (kc : ℚ) (nm : String) (e : EvapotranspirationCalculator),
      EvapotranspirationCalculator.init w kc nm = .ok e → e.weather_data = w.rows) ∧
    (∀ e : EvapotranspirationCalculator,
      (calculate_etc e).2.weather_data = e.weather_data ∧
      (calculate_etc e).2.crop_kc = e.crop_kc ∧
      (calculate_etc e).1 = e.weather_data.map (fun r => r.et0_fao.getD 0 * e.crop_kc)) ∧
    (∀ (e : EvapotranspirationCalculator) (n : ℤ) (eff : ℚ)
        (res : IrrigationNeedResult) (e1 : EvapotranspirationCalculator),
      calculate_irrigation_need e n eff = .ok (res, e1) →
      e1.weather_data = e.weather_data ∧ e1.crop_kc = e.crop_kc ∧
      calculate_irrigation_need e1 n eff = .ok (res, e1)) ∧
    (∀ (e : EvapotranspirationCalculator) (s : ℚ) (n : ℤ) (eff : ℚ)
        (r : IrrigationVolumeResult) (e1 : EvapotranspirationCalculator),
      calculate_irrigation_volume e s n eff = .ok (r, e1) →
      calculate_irrigation_volume e1 s n eff = .ok (r, e1)) := by
  refine ⟨?_, ?_, ?_, ?_⟩
  · intro w kc nm e h
    rw [(init_ok_inv w kc nm e h).1]
  · intro e
    exact ⟨rfl, rfl, rfl⟩
  · intro e n eff res e1 h
    obtain ⟨-, -, -, -, he1⟩ := calculate_irrigation_need_ok_inv e n eff res e1 h
    exact ⟨by rw [he1, ensureEtc_weather], by rw [he1, ensureEtc_kc],
      calculate_irrigation_need_repeat e n eff res e1 h⟩
  · intro e s n eff r e1 h
    by_cases hs : s ≤ 0
    · unfold calculate_irrigation_volume at h
      rw [if_pos hs] at h
      exact absurd h (by simp)
    · unfold calculate_irrigation_volume at h ⊢
      rw [if_neg hs] at h ⊢
      cases hne : calculate_irrigation_need e n eff with
      | error err =>
        rw [hne] at h
        exact absurd h (by simp)
      | ok p =>
        obtain ⟨needs, e1x⟩ := p
        rw [hne] at h
        obtain ⟨-, he1⟩ := Prod.mk.injEq .. ▸ Except.ok.inj h
        subst he1
        rw [calculate_irrigation_need_repeat e n eff needs e1x hne]
        exact h

/-- C10 witness: the scenario volume computation re-run on the state returned
by the first run yields the identical result and state. -/
theorem claim10_engine_purity_witness :
    calculate_irrigation_volume engine7after 2 7 (4/5) = .ok (vol7, engine7after) :=
  claim10_engine_purity.2.2.2 engine7 2 7 (4/5) vol7 engine7after volume_scenario

/-! ### Claim C3: the four missing-data policies -/

theorem parse_raise_eq (df : List Record) :
    parse_response_to_dataframe df "raise" =
      if isna_any df then .error .weatherAPIError else .ok df := by
  cases hm : isna_any df <;>
    simp [parse_response_to_dataframe, hm, ALLOWED_STRATEGIES]

theorem parse_zero_eq (df : List Record) :
    parse_response_to_dataframe df "zero" =
      if isna_any df then .ok (fillna0 df) else .ok df := by
  cases hm : isna_any df <;>
    simp [parse_response_to_dataframe, hm, ALLOWED_STRATEGIES]

theorem parse_interpolate_eq (df : List Record) :
    parse_response_to_dataframe df "interpolate" =
      if isna_any df then .ok (interpolate_linear df) else .ok df := by
  cases hm : isna_any df <;>
    simp [parse_response_to_dataframe, hm, ALLOWED_STRATEGIES]

theorem parse_drop_eq (df : List Record) :
    parse_response_to_dataframe df "drop" =
      if isna_any df then .ok (dropna df) else .ok df := by
  cases hm : isna_any df <;>
    simp [parse_response_to_dataframe, hm, ALLOWED_STRATEGIES]

/-- C3: the four missing-data policies behave as specified — `raise` fails
with `WeatherAPIError` exactly when some cell is missing and passes a
complete series through unchanged; `zero` replaces exactly the missing cells
by 0 preserving the length; `drop` yields a series with no missing cell that
is no longer than the input; `interpolate` fills every gap bounded by two
known values with the linear interpolant. -/
theorem claim3_missing_data_policies (df : List Record) :
    ((parse_response_to_dataframe df "raise" = .error .weatherAPIError ↔
        isna_any df = true) ∧
      (isna_any df = false → parse_response_to_dataframe df "raise" = .ok df)) ∧
    (∃ out, parse_response_to_dataframe df "zero" = .ok out ∧
      out.length = df.length ∧ isna_any out = false ∧
      ∀ i : ℕ, out.get? i = (df.get? i).map Record.fillZero) ∧
    (∃ out, parse_response_to_dataframe df "drop" = .ok out ∧
      isna_any out = false ∧ out.length ≤ df.length) ∧
    (∃ out, parse_response_to_dataframe df "interpolate" = .ok out ∧
      ∀ (c : Fin 6) (i j k : ℕ) (a b : ℚ),
        (df.map (fun r => r.col c)).get? i = some none →
        prevKnown (df.map (fun r => r.col c)) i = some (j, a) →
        nextKnown (df.map (fun r => r.col c)) i = some (k, b) →
        (out.map (fun r => r.col c)).get? i =
          some (some (a + (b - a) * (((i : ℚ) - (j : ℚ)) / ((k : ℚ) - (j : ℚ)))))) := by
  refine ⟨⟨?_, ?_⟩, ?_, ?_, ?_⟩
  · rw [parse_raise_eq]
    cases hm : isna_any df <;> simp
  · intro hm
    rw [parse_raise_eq, hm]
    simp
  · rw [parse_zero_eq]
    cases hm : isna_any df
    · refine ⟨df, by simp, rfl, hm, ?_⟩
      intro i
      cases hg : df.get? i with
      | none => simp
      | some r =>
        simp [Record.fillZero_of_complete r
          (isna_any_false_complete hm (List.get?_mem hg))]
    · refine ⟨fillna0 df, by simp, by simp [fillna0], ?_, ?_⟩
      · refine List.any_eq_false.mpr ?_
        intro r hr
        obtain ⟨r0, -, hr0⟩ := List.mem_map.mp hr
        simp [← hr0, Record.fillZero_complete]
      · intro i
        exact List.get?_map Record.fillZero df i
  · rw [parse_drop_eq]
    cases hm : isna_any df
    · exact ⟨df, by simp, hm, le_refl _⟩
    · refine ⟨dropna df, by simp, ?_, List.length_filter_le _ _⟩
      refine List.any_eq_false.mpr ?_
      intro r hr
      have hc := (List.mem_filter.mp hr).2
      simp [hc]
  · rw [parse_interpolate_eq]
    cases hm : isna_any df
    · refine ⟨df, by simp, ?_⟩
      intro c i j k a b hget hprev hnext
      exact absurd (col_missing_isna_any hget) (by simp [hm])
    · refine ⟨interpolate_linear df, by simp, ?_⟩
      intro c i j k a b hget hprev hnext
      have hi : i < df.length := by
        by_contra hcon
        push_neg at hcon
        rw [List.get?_eq_none.mpr (by simpa using hcon)] at hget
        exact Option.noConfusion hget
      rw [interpolate_linear_col_get df c i hi,
        interpAt_bounded_gap hget hprev hnext]

/-- C3 witness: on the three-day frame with an interior `et0_fao` gap between
1 and 3, the `interpolate` policy fills position 1 with 2. -/
theorem claim3_missing_data_policies_witness :
    ∃ out, parse_response_to_dataframe dfGap "interpolate" = .ok out ∧
      (out.map (fun r => r.col 4)).get? 1 = some (some 2) := by
  obtain ⟨out, hok, hgap⟩ := (claim3_missing_data_policies dfGap).2.2.2
  refine ⟨out, hok, ?_⟩
  have h := hgap 4 1 0 2 1 3 (by decide) (by decide) (by decide)
  rw [h]
  norm_num

end AgriWater
